import Mathlib

/-!
Shallow embedding of the Logwell Python SDK HTTP transport
(`sdks/python/src/logwell/transport.py`): error classification,
the retry loop of `HttpTransport.send`, the exponential-backoff delay,
request construction, and the lazy client lifecycle.
-/

namespace Logwell

/-- Error codes of `LogwellErrorCode` used by the transport. -/
inductive ErrorKind where
  | NETWORK_ERROR
  | UNAUTHORIZED
  | VALIDATION_ERROR
  | RATE_LIMITED
  | SERVER_ERROR
deriving DecidableEq

/-- `LogwellError(message, code, http_status, retryable)`. -/
structure LogwellError where
  message : String
  code : ErrorKind
  http_status : Option Nat
  retryable : Bool
deriving DecidableEq

/-- A parsed JSON object, reduced to the fields the transport reads:
`message` and `error` on the error path, and the pass-through
accepted/rejected counts on the success path (`response.json()` is
returned unvalidated as the `IngestResponse`). -/
structure JsonVal where
  message : Option String
  error : Option String
  accepted : Int
  rejected : Int
deriving DecidableEq

/-- The success payload is the parsed JSON body passed through unchanged. -/
def IngestResponse := JsonVal
deriving DecidableEq

/-- A response body: either it fails to parse as JSON
(`response.json()` raises) or it parses to a JSON object. -/
inductive Body where
  | unparsable
  | parsed (j : JsonVal)
deriving DecidableEq

/-- Outcome of the single HTTP exchange of one attempt, before the
transport inspects it: a timeout (`httpx.TimeoutException`), another
transport-level request failure (`httpx.RequestError`), or a received
response with a status code and a body. -/
inductive RawResult where
  | timeout (msg : String)
  | requestError (msg : String)
  | response (status : Nat) (body : Body)
deriving DecidableEq

/-- A Python exception escaping `_do_request`: either a classified
`LogwellError` (the only kind the retry loop catches) or any other
exception, such as a JSON decode failure on a 2xx body. -/
inductive PyExn where
  | logwell (e : LogwellError)
  | other (msg : String)
deriving DecidableEq

/-- `httpx.Response.is_success`: status in the 2xx range. -/
def is_success (status : Nat) : Bool :=
  200 ≤ status && status < 300

/-- `HttpTransport._create_error`: map a status code and message to a
`LogwellError`, mirroring the if/elif chain of the source. -/
def create_error (status : Nat) (message : String) : LogwellError :=
  if status = 401 then
    ⟨s!"Unauthorized: {message}", .UNAUTHORIZED, some status, false⟩
  else if status = 400 then
    ⟨s!"Validation error: {message}", .VALIDATION_ERROR, some status, false⟩
  else if status = 429 then
    ⟨s!"Rate limited: {message}", .RATE_LIMITED, some status, true⟩
  else if 500 ≤ status then
    ⟨s!"Server error: {message}", .SERVER_ERROR, some status, true⟩
  else
    ⟨s!"HTTP error {status}: {message}", .SERVER_ERROR, some status, false⟩

/-- Python truthiness of an optional string field: `None` and the empty
string are falsy, so `body.get(k) or ...` falls through on both. -/
def pyTruthy : Option String → Option String
  | some s => if s = "" then none else some s
  | none => none

/-- `HttpTransport._try_parse_error`: extract a message from the error
response body. On a parsed JSON object it evaluates
`body.get("message") or body.get("error") or "Unknown error"`; a body
that fails to parse yields the generic `"HTTP {status}"` string. -/
def try_parse_error (status : Nat) : Body → String
  | .unparsable => s!"HTTP {status}"
  | .parsed j =>
    match pyTruthy j.message with
    | some s => s
    | none =>
      match pyTruthy j.error with
      | some s => s
      | none => "Unknown error"

/-- `HttpTransport._do_request` applied to the outcome of its single
HTTP exchange: transport-level failures become retryable
`NETWORK_ERROR`s with no status; a non-2xx response is classified by
`create_error` on the message extracted by `try_parse_error`; a 2xx
response is parsed as JSON (an unparsable 2xx body raises an
unclassified exception) and returned as the `IngestResponse`. -/
def do_request (raw : RawResult) : Except PyExn JsonVal :=
  match raw with
  | .timeout m =>
    .error (.logwell ⟨s!"Request timeout: {m}", .NETWORK_ERROR, none, true⟩)
  | .requestError m =>
    .error (.logwell ⟨s!"Network error: {m}", .NETWORK_ERROR, none, true⟩)
  | .response status body =>
    if is_success status = false then
      .error (.logwell (create_error status (try_parse_error status body)))
    else
      match body with
      | .unparsable => .error (.other s!"JSONDecodeError: HTTP {status}")
      | .parsed j => .ok j

/-- The placeholder `last_error` initialized at the top of `send`. -/
def default_last_error : LogwellError :=
  ⟨"Max retries exceeded", .NETWORK_ERROR, none, true⟩

deriving instance DecidableEq for Except

/-- Observable outcome of one `send` call: the returned value or raised
exception, the number of executor invocations made, and the list of
attempt indices after which a backoff sleep occurred. -/
structure SendOutcome where
  result : Except PyExn JsonVal
  invocations : Nat
  sleeps : List Nat
deriving DecidableEq

/-- The retry loop of `HttpTransport.send`, one loop iteration per
recursive step. `mr` is `max_retries`, `attempt` the current loop
index, `rem` the number of loop iterations still to run
(`mr + 1 - attempt` at the top-level call), `lastErr` the current
`last_error`. When the loop exhausts, `last_error` is raised. Only
`LogwellError` is caught: any other exception escapes at once. -/
def sendAux (exec : Nat → Except PyExn JsonVal) (mr : Nat) :
    Nat → Nat → LogwellError → SendOutcome
  | _, 0, lastErr => ⟨.error (.logwell lastErr), 0, []⟩
  | attempt, rem + 1, _ =>
    match exec attempt with
    | .ok r => ⟨.ok r, 1, []⟩
    | .error (.other m) => ⟨.error (.other m), 1, []⟩
    | .error (.logwell e) =>
      if e.retryable then
        if attempt < mr then
          let rest := sendAux exec mr (attempt + 1) rem e
          ⟨rest.result, rest.invocations + 1, attempt :: rest.sleeps⟩
        else
          let rest := sendAux exec mr (attempt + 1) rem e
          ⟨rest.result, rest.invocations + 1, rest.sleeps⟩
      else ⟨.error (.logwell e), 1, []⟩

/-- `HttpTransport.send` over an abstract per-attempt executor:
iterates attempts `0 .. mr` with the initial placeholder error. -/
def send (exec : Nat → Except PyExn JsonVal) (mr : Nat) : SendOutcome :=
  sendAux exec mr 0 (mr + 1) default_last_error

/-- `send` composed with `_do_request`: each attempt's executor result
is the classification of that attempt's raw HTTP outcome. -/
def transport_send (raws : Nat → RawResult) (mr : Nat) : SendOutcome :=
  send (fun i => do_request (raws i)) mr

/-- `delay_secs = min(base_delay * (2**attempt), 10.0)` from `_delay`,
over exact rationals. -/
def delay_secs (attempt : Nat) (base : ℚ) : ℚ :=
  min (base * 2 ^ attempt) 10

/-- The duration slept by `_delay` with `u = random.random()`:
`delay_secs + jitter` where `jitter = u * delay_secs * 0.3`. -/
def delayFor (attempt : Nat) (base u : ℚ) : ℚ :=
  delay_secs attempt base + u * delay_secs attempt base * (3 / 10)

/-- The transport configuration fields the request pipeline reads. -/
structure TransportConfig where
  endpoint : String
  api_key : String
  max_retries : Nat
  timeout : ℚ
deriving DecidableEq

/-- A log entry is treated as a black box serializable record. -/
def LogEntry := String
deriving DecidableEq

/-- The one HTTP request an attempt issues, as built in `__init__`
(ingest URL) and `_do_request` (method, headers, body). -/
structure HttpRequest where
  method : String
  url : String
  headers : List (String × String)
  body : List LogEntry
deriving DecidableEq

/-- The POST request of one attempt: URL `{endpoint}/v1/ingest`, the
authorization and content-type headers, and the batch itself as body. -/
def build_request (cfg : TransportConfig) (logs : List LogEntry) : HttpRequest :=
  ⟨"POST",
   cfg.endpoint ++ "/v1/ingest",
   [("Authorization", "Bearer " ++ cfg.api_key),
    ("Content-Type", "application/json")],
   logs⟩

/-- The underlying HTTP client handle (`httpx.AsyncClient(timeout=...)`),
identified by the timeout it is constructed with. -/
structure Client where
  timeout : ℚ
deriving DecidableEq

/-- Observable client lifecycle actions. -/
inductive ClientAction where
  | create (timeout : ℚ)
  | aclose
deriving DecidableEq

/-- `HttpTransport._get_client`: return the existing client, or create
one when the handle is absent. Yields the client used, the new handle
state, and the lifecycle actions performed. -/
def get_client (cfg : TransportConfig) (st : Option Client) :
    Client × Option Client × List ClientAction :=
  match st with
  | none => (⟨cfg.timeout⟩, some ⟨cfg.timeout⟩, [.create cfg.timeout])
  | some c => (c, some c, [])

/-- `HttpTransport.close`: close the client when one exists and reset
the handle to absent; do nothing when the handle is already absent. -/
def close (st : Option Client) : Option Client × List ClientAction :=
  match st with
  | some _ => (none, [.aclose])
  | none => (none, [])

lemma create_error_http_status (s : Nat) (m : String) :
    (create_error s m).http_status = some s := by
  unfold create_error
  split_ifs <;> rfl

/-- C1: for every non-2xx HTTP status `s`, `create_error` yields an
error carrying `http_status = some s`, with kind and retryable flag
given by the table: 401 → UNAUTHORIZED/false, 400 →
VALIDATION_ERROR/false, 429 → RATE_LIMITED/true, ≥ 500 →
SERVER_ERROR/true, and every other non-2xx status →
SERVER_ERROR/false. -/
theorem C1_status_classification (s : Nat) (m : String)
    (_h : s < 200 ∨ 300 ≤ s) :
    (create_error s m).http_status = some s ∧
    (s = 401 → (create_error s m).code = .UNAUTHORIZED ∧
      (create_error s m).retryable = false) ∧
    (s = 400 → (create_error s m).code = .VALIDATION_ERROR ∧
      (create_error s m).retryable = false) ∧
    (s = 429 → (create_error s m).code = .RATE_LIMITED ∧
      (create_error s m).retryable = true) ∧
    (500 ≤ s → (create_error s m).code = .SERVER_ERROR ∧
      (create_error s m).retryable = true) ∧
    (s ≠ 401 → s ≠ 400 → s ≠ 429 → s < 500 →
      (create_error s m).code = .SERVER_ERROR ∧
      (create_error s m).retryable = false) := by
  refine ⟨create_error_http_status s m, ?_, ?_, ?_, ?_, ?_⟩ <;>
    unfold create_error <;> split_ifs <;> simp_all

/-- C1 witness: status 403 (catch-all branch) yields
SERVER_ERROR/false with `http_status = some 403`. -/
theorem C1_status_classification_witness :
    (create_error 403 "forbidden").http_status = some 403 ∧
    (create_error 403 "forbidden").code = .SERVER_ERROR ∧
    (create_error 403 "forbidden").retryable = false := by
  have h := C1_status_classification 403 "forbidden" (Or.inr (by norm_num))
  exact ⟨h.1, h.2.2.2.2.2 (by norm_num) (by norm_num) (by norm_num) (by norm_num)⟩

/-- C4: the backoff duration equals `capped + jitter` with
`capped = min(base * 2^attempt, 10)` (base = 100ms) and
`jitter = u * capped * 0.3` for a uniform draw `u ∈ [0, 1)`; it is
strictly positive, lies in `[capped, capped * 1.3]`, hence in
`[base*2^attempt, base*2^attempt*1.3]` while uncapped and in `[10, 13]`
once capped, and never exceeds 13 seconds. -/
theorem C4_backoff_bounds (a : Nat) (u : ℚ) (h0 : 0 ≤ u) (h1 : u < 1) :
    delayFor a (1/10) u
      = delay_secs a (1/10) + u * delay_secs a (1/10) * (3/10) ∧
    0 < delayFor a (1/10) u ∧
    delay_secs a (1/10) ≤ delayFor a (1/10) u ∧
    delayFor a (1/10) u ≤ delay_secs a (1/10) * (13/10) ∧
    delayFor a (1/10) u ≤ 13 ∧
    ((1/10 : ℚ) * 2 ^ a ≤ 10 →
      (1/10 : ℚ) * 2 ^ a ≤ delayFor a (1/10) u ∧
      delayFor a (1/10) u ≤ (1/10 : ℚ) * 2 ^ a * (13/10)) ∧
    (10 < (1/10 : ℚ) * 2 ^ a →
      10 ≤ delayFor a (1/10) u ∧ delayFor a (1/10) u ≤ 13) := by
  have hb : (0:ℚ) < (1/10 : ℚ) * 2 ^ a := by positivity
  have hc0 : 0 < delay_secs a (1/10) := lt_min hb (by norm_num)
  have hc10 : delay_secs a (1/10) ≤ 10 := min_le_right _ _
  have hj0 : 0 ≤ u * delay_secs a (1/10) * (3/10) :=
    mul_nonneg (mul_nonneg h0 hc0.le) (by norm_num)
  have hj1 : u * delay_secs a (1/10) * (3/10) ≤ delay_secs a (1/10) * (3/10) := by
    nlinarith
  refine ⟨rfl, ?_, ?_, ?_, ?_, ?_, ?_⟩
  · unfold delayFor; linarith
  · unfold delayFor; linarith
  · unfold delayFor; nlinarith
  · unfold delayFor; nlinarith
  · intro hle
    have hc : delay_secs a (1/10) = (1/10 : ℚ) * 2 ^ a := min_eq_left hle
    constructor
    · unfold delayFor; rw [hc] at hj0 ⊢; linarith
    · unfold delayFor; rw [hc] at hj1 ⊢; nlinarith
  · intro hgt
    have hc : delay_secs a (1/10) = 10 := min_eq_right hgt.le
    constructor
    · unfold delayFor; rw [hc] at hj0 ⊢; linarith
    · unfold delayFor; rw [hc] at hj1 ⊢; nlinarith

/-- C4 witness: attempt 3, draw 1/2: the delay is positive and at
most 13 seconds. -/
theorem C4_backoff_bounds_witness :
    0 < delayFor 3 (1/10) (1/2) ∧ delayFor 3 (1/10) (1/2) ≤ 13 :=
  ⟨(C4_backoff_bounds 3 (1/2) (by norm_num) (by norm_num)).2.1,
   (C4_backoff_bounds 3 (1/2) (by norm_num) (by norm_num)).2.2.2.2.1⟩

/-- C6 fails as stated: a body that parses as JSON but carries neither
a `message` nor an `error` field yields the string "Unknown error",
not the generic "HTTP \x7bstatus\x7d" string the claim asserts. -/
theorem C6_counterexample :
    try_parse_error 404 (.parsed ⟨none, none, 0, 0⟩) = "Unknown error" ∧
    try_parse_error 404 (.parsed ⟨none, none, 0, 0⟩) ≠ "HTTP 404" := by
  constructor
  · rfl
  · decide

/-- C6 amended: the extracted message is the body's `message` field if
present and non-empty, else its `error` field if present and
non-empty, else the string "Unknown error"; only a body that cannot be
parsed as JSON yields the generic "HTTP \x7bstatus\x7d" string. A 401
response with an unparsable body yields UNAUTHORIZED, retryable =
false, with a message containing the generic fallback string. -/
theorem C6_error_message_extraction (status : Nat) (j : JsonVal) :
    (∀ s, j.message = some s → s ≠ "" →
      try_parse_error status (.parsed j) = s) ∧
    ((j.message = none ∨ j.message = some "") →
      ∀ s, j.error = some s → s ≠ "" →
        try_parse_error status (.parsed j) = s) ∧
    ((j.message = none ∨ j.message = some "") →
      (j.error = none ∨ j.error = some "") →
      try_parse_error status (.parsed j) = "Unknown error") ∧
    try_parse_error status .unparsable = s!"HTTP {status}" ∧
    (create_error 401 (try_parse_error 401 .unparsable)).code
      = .UNAUTHORIZED ∧
    (create_error 401 (try_parse_error 401 .unparsable)).retryable
      = false ∧
    (∃ pre post, (create_error 401 (try_parse_error 401 .unparsable)).message
      = pre ++ "HTTP 401" ++ post) := by
  refine ⟨?_, ?_, ?_, rfl, by decide, by decide,
    ⟨"Unauthorized: ", "", by decide⟩⟩
  · intro s hm hs
    simp [try_parse_error, pyTruthy, hm, hs]
  · intro hm s he hs
    rcases hm with hm | hm <;>
      simp [try_parse_error, pyTruthy, hm, he, hs]
  · intro hm he
    rcases hm with hm | hm <;> rcases he with he | he <;>
      simp [try_parse_error, pyTruthy, hm, he]

/-- C6 witness: a body with non-empty `message` field "boom" yields
"boom". -/
theorem C6_error_message_extraction_witness :
    try_parse_error 500 (.parsed ⟨some "boom", some "x", 1, 2⟩) = "boom" :=
  (C6_error_message_extraction 500 ⟨some "boom", some "x", 1, 2⟩).1
    "boom" rfl (by decide)

/-- C7: every transport-level failure (timeout or request error) is
classified as NETWORK_ERROR with no HTTP status and retryable = true;
every error built from a received response carries its status code; and
any classified error with no status is a retryable NETWORK_ERROR. -/
theorem C7_network_error_classification (raw : RawResult) (e : LogwellError)
    (h : do_request raw = .error (.logwell e)) :
    ((∃ m, raw = .timeout m ∨ raw = .requestError m) →
      e.code = .NETWORK_ERROR ∧ e.http_status = none ∧ e.retryable = true) ∧
    (∀ s b, raw = .response s b → e.http_status = some s) ∧
    (e.http_status = none → e.code = .NETWORK_ERROR ∧ e.retryable = true) := by
  cases raw with
  | timeout m =>
    simp only [do_request, Except.error.injEq, PyExn.logwell.injEq] at h
    subst h
    exact ⟨fun _ => ⟨rfl, rfl, rfl⟩, by simp, fun _ => ⟨rfl, rfl⟩⟩
  | requestError m =>
    simp only [do_request, Except.error.injEq, PyExn.logwell.injEq] at h
    subst h
    exact ⟨fun _ => ⟨rfl, rfl, rfl⟩, by simp, fun _ => ⟨rfl, rfl⟩⟩
  | response s b =>
    have hst : e.http_status = some s := by
      by_cases hs : is_success s = false
      · simp only [do_request, if_pos hs, Except.error.injEq,
          PyExn.logwell.injEq] at h
        rw [← h, create_error_http_status]
      · simp only [do_request, if_neg hs] at h
        cases b <;> simp at h
    refine ⟨?_, ?_, ?_⟩
    · rintro ⟨m, hm | hm⟩ <;> exact absurd hm (by simp)
    · rintro s' b' heq
      rw [RawResult.response.injEq] at heq
      rw [hst, heq.1]
    · intro hnone
      rw [hst] at hnone
      exact absurd hnone (by simp)

/-- C7 witness: a request timeout is classified as a retryable
NETWORK_ERROR with no HTTP status. -/
theorem C7_network_error_classification_witness :
    (⟨"Request timeout: t", .NETWORK_ERROR, none, true⟩ : LogwellError).code
      = .NETWORK_ERROR ∧
    (⟨"Request timeout: t", .NETWORK_ERROR, none, true⟩ : LogwellError).http_status
      = none ∧
    (⟨"Request timeout: t", .NETWORK_ERROR, none, true⟩ : LogwellError).retryable
      = true :=
  (C7_network_error_classification (.timeout "t")
    ⟨"Request timeout: t", .NETWORK_ERROR, none, true⟩ rfl).1 ⟨"t", Or.inl rfl⟩

/-- C8: the request of one attempt is a POST to
`endpoint ++ "/v1/ingest"` with the Bearer authorization and JSON
content-type headers, whose body is the batch forwarded as-is; an
empty batch is forwarded as the empty body. -/
theorem C8_request_construction (cfg : TransportConfig) (logs : List LogEntry) :
    (build_request cfg logs).method = "POST" ∧
    (build_request cfg logs).url = cfg.endpoint ++ "/v1/ingest" ∧
    ("Authorization", "Bearer " ++ cfg.api_key) ∈ (build_request cfg logs).headers ∧
    ("Content-Type", "application/json") ∈ (build_request cfg logs).headers ∧
    (build_request cfg logs).body = logs ∧
    (build_request cfg []).body = [] := by
  simp [build_request]

/-- C10: the client handle is lazily created whenever absent, reused
when present, `close` releases an existing client and resets the
handle to absent, `close` on an absent handle is a no-op, and after
any `close` the next acquisition recreates a fresh client on demand. -/
theorem C10_lazy_client_lifecycle (cfg : TransportConfig) (st : Option Client) :
    get_client cfg none = (⟨cfg.timeout⟩, some ⟨cfg.timeout⟩, [.create cfg.timeout]) ∧
    (∀ c, get_client cfg (some c) = (c, some c, [])) ∧
    (∀ c, close (some c) = (none, [.aclose])) ∧
    close none = (none, []) ∧
    close (close st).1 = (none, []) ∧
    get_client cfg (close st).1
      = (⟨cfg.timeout⟩, some ⟨cfg.timeout⟩, [.create cfg.timeout]) := by
  cases st <;> simp [get_client, close]

lemma sendAux_success (exec : Nat → Except PyExn JsonVal) (mr k : Nat)
    (r : JsonVal) (hsucc : exec k = .ok r) :
    ∀ rem attempt lastErr, attempt + rem = mr + 1 → attempt ≤ k → k ≤ mr →
    (∀ i, attempt ≤ i → i < k →
      ∃ e, exec i = .error (.logwell e) ∧ e.retryable = true) →
    sendAux exec mr attempt rem lastErr
      = ⟨.ok r, k - attempt + 1, List.range' attempt (k - attempt)⟩ := by
  intro rem
  induction rem with
  | zero => intro attempt lastErr h1 h2 h3 _; omega
  | succ n ih =>
    intro attempt lastErr h1 h2 h3 hfail
    rcases Nat.eq_or_lt_of_le h2 with heq | hlt
    · subst heq
      simp only [sendAux, hsucc, Nat.sub_self, List.range']
    · obtain ⟨e, he, hret⟩ := hfail attempt le_rfl hlt
      have hmr : attempt < mr := by omega
      simp only [sendAux, he, hret, if_true, if_pos hmr]
      rw [ih (attempt + 1) e (by omega) (by omega) h3
        (fun i hi1 hi2 => hfail i (by omega) hi2)]
      have hk : k - attempt = (k - (attempt + 1)) + 1 := by omega
      rw [hk, List.range'_succ]

lemma sendAux_nonretryable (exec : Nat → Except PyExn JsonVal) (mr k : Nat)
    (ek : LogwellError) (hk : exec k = .error (.logwell ek))
    (hnr : ek.retryable = false) :
    ∀ rem attempt lastErr, attempt + rem = mr + 1 → attempt ≤ k → k ≤ mr →
    (∀ i, attempt ≤ i → i < k →
      ∃ e, exec i = .error (.logwell e) ∧ e.retryable = true) →
    sendAux exec mr attempt rem lastErr
      = ⟨.error (.logwell ek), k - attempt + 1, List.range' attempt (k - attempt)⟩ := by
  intro rem
  induction rem with
  | zero => intro attempt lastErr h1 h2 h3 _; omega
  | succ n ih =>
    intro attempt lastErr h1 h2 h3 hfail
    rcases Nat.eq_or_lt_of_le h2 with heq | hlt
    · subst heq
      simp only [sendAux, hk, hnr, Bool.false_eq_true, if_false,
        Nat.sub_self, List.range']
    · obtain ⟨e, he, hret⟩ := hfail attempt le_rfl hlt
      have hmr : attempt < mr := by omega
      simp only [sendAux, he, hret, if_true, if_pos hmr]
      rw [ih (attempt + 1) e (by omega) (by omega) h3
        (fun i hi1 hi2 => hfail i (by omega) hi2)]
      have hksub : k - attempt = (k - (attempt + 1)) + 1 := by omega
      rw [hksub, List.range'_succ]

lemma sendAux_exhaust (exec : Nat → Except PyExn JsonVal) (mr : Nat)
    (emr : LogwellError) (hlast : exec mr = .error (.logwell emr))
    (hret : emr.retryable = true) :
    ∀ rem attempt lastErr, 1 ≤ rem → attempt + rem = mr + 1 →
    (∀ i, attempt ≤ i → i < mr →
      ∃ e, exec i = .error (.logwell e) ∧ e.retryable = true) →
    sendAux exec mr attempt rem lastErr
      = ⟨.error (.logwell emr), rem, List.range' attempt (rem - 1)⟩ := by
  intro rem
  induction rem with
  | zero => intro attempt lastErr h0 _ _; omega
  | succ n ih =>
    intro attempt lastErr _ h1 hfail
    by_cases hend : attempt = mr
    · have hn : n = 0 := by omega
      subst hend
      subst hn
      simp only [sendAux, hlast, hret, if_true, if_neg (lt_irrefl attempt),
        List.range']
    · have hmr : attempt < mr := by omega
      obtain ⟨e, he, hret2⟩ := hfail attempt le_rfl hmr
      simp only [sendAux, he, hret2, if_true, if_pos hmr]
      rw [ih (attempt + 1) e (by omega) (by omega)
        (fun i hi1 hi2 => hfail i (by omega) hi2)]
      simp only [Nat.add_sub_cancel]
      have hn2 : List.range' attempt n = attempt :: List.range' (attempt + 1) (n - 1) := by
        conv_lhs => rw [show n = (n - 1) + 1 from by omega]
        rw [List.range'_succ]
      rw [hn2]

/-- C2: when every attempt `0 .. max_retries` raises a retryable
error, `send` makes exactly `max_retries + 1` executor invocations,
sleeps exactly after attempts `0 .. max_retries - 1` (never after the
final attempt), and raises the error observed on the last attempt. -/
theorem C2_retryable_exhaustion (exec : Nat → Except PyExn JsonVal)
    (mr : Nat) (emr : LogwellError)
    (hall : ∀ i, i ≤ mr →
      ∃ e, exec i = .error (.logwell e) ∧ e.retryable = true)
    (hlast : exec mr = .error (.logwell emr)) :
    send exec mr
      = ⟨.error (.logwell emr), mr + 1, List.range' 0 mr⟩ := by
  obtain ⟨e, he, hret⟩ := hall mr le_rfl
  rw [hlast, Except.error.injEq, PyExn.logwell.injEq] at he
  subst he
  unfold send
  have h := sendAux_exhaust exec mr emr hlast hret (mr + 1) 0
    default_last_error (by omega) (by omega) (fun i _ hi2 => hall i (by omega))
  simpa using h

/-- C2 witness: `max_retries = 2`, every attempt raises the same
retryable network error: 3 invocations, sleeps after attempts 0 and 1,
and the last attempt's error is raised. -/
theorem C2_retryable_exhaustion_witness :
    send (fun _ => .error (.logwell
      ⟨"Network error: refused", .NETWORK_ERROR, none, true⟩)) 2
      = ⟨.error (.logwell
          ⟨"Network error: refused", .NETWORK_ERROR, none, true⟩), 3, [0, 1]⟩ := by
  have h := C2_retryable_exhaustion
    (fun _ => .error (.logwell
      ⟨"Network error: refused", .NETWORK_ERROR, none, true⟩)) 2
    ⟨"Network error: refused", .NETWORK_ERROR, none, true⟩
    (fun i _ => ⟨⟨"Network error: refused", .NETWORK_ERROR, none, true⟩,
      rfl, rfl⟩) rfl
  exact h.trans (by rfl)

/-- C3: when attempts before `k` raise retryable errors and attempt
`k ≤ max_retries` raises a non-retryable error, `send` raises that
exact error immediately: exactly `k + 1` executor invocations, and the
only sleeps are those after attempts `0 .. k - 1` — none after the
non-retryable error. In particular `k = 0` gives one invocation and no
sleep. -/
theorem C3_nonretryable_short_circuit (exec : Nat → Except PyExn JsonVal)
    (mr k : Nat) (ek : LogwellError) (hk : k ≤ mr)
    (hfail : ∀ i, i < k →
      ∃ e, exec i = .error (.logwell e) ∧ e.retryable = true)
    (hkerr : exec k = .error (.logwell ek)) (hnr : ek.retryable = false) :
    send exec mr = ⟨.error (.logwell ek), k + 1, List.range' 0 k⟩ := by
  unfold send
  have h := sendAux_nonretryable exec mr k ek hkerr hnr (mr + 1) 0
    default_last_error (by omega) (by omega) hk (fun i _ hi2 => hfail i hi2)
  simpa using h

/-- C3 witness: a non-retryable 401 error on attempt 0 with
`max_retries = 3`: raised at once after one invocation and no sleep. -/
theorem C3_nonretryable_short_circuit_witness :
    send (fun _ => .error (.logwell (create_error 401 "HTTP 401"))) 3
      = ⟨.error (.logwell (create_error 401 "HTTP 401")), 1, []⟩ := by
  have h := C3_nonretryable_short_circuit
    (fun _ => .error (.logwell (create_error 401 "HTTP 401"))) 3 0
    (create_error 401 "HTTP 401") (by omega)
    (fun i hi => absurd hi (Nat.not_lt_zero i)) rfl (by rfl)
  exact h.trans (by rfl)

/-- C5: when attempts before `k ≤ max_retries` raise retryable errors
and attempt `k` succeeds with `r`, `send` returns `r` unchanged after
exactly `k + 1` executor invocations and sleeps exactly after attempts
`0 .. k - 1`. -/
theorem C5_success_after_retryable_failures (exec : Nat → Except PyExn JsonVal)
    (mr k : Nat) (r : JsonVal) (hk : k ≤ mr)
    (hfail : ∀ i, i < k →
      ∃ e, exec i = .error (.logwell e) ∧ e.retryable = true)
    (hsucc : exec k = .ok r) :
    send exec mr = ⟨.ok r, k + 1, List.range' 0 k⟩ := by
  unfold send
  have h := sendAux_success exec mr k r hsucc (mr + 1) 0
    default_last_error (by omega) (by omega) hk (fun i _ hi2 => hfail i hi2)
  simpa using h

/-- C5 witness: the spec scenario — `max_retries = 3`, retryable
network errors on attempts 0–2, success `accepted = 10, rejected = 0`
on attempt 3: the success is returned after exactly 4 invocations and
3 sleeps. -/
theorem C5_success_after_retryable_failures_witness :
    send (fun i => if i < 3
      then .error (.logwell ⟨"Network error: refused", .NETWORK_ERROR, none, true⟩)
      else .ok ⟨none, none, 10, 0⟩) 3
      = ⟨.ok ⟨none, none, 10, 0⟩, 4, [0, 1, 2]⟩ := by
  have h := C5_success_after_retryable_failures
    (fun i => if i < 3
      then .error (.logwell ⟨"Network error: refused", .NETWORK_ERROR, none, true⟩)
      else .ok ⟨none, none, 10, 0⟩) 3 3 ⟨none, none, 10, 0⟩ (by omega)
    (fun i hi => ⟨⟨"Network error: refused", .NETWORK_ERROR, none, true⟩,
      by simp [hi], rfl⟩) (by simp)
  exact h.trans (by rfl)

/-- C9: a 2xx response whose body cannot be parsed as JSON raises an
exception that is not a classified `LogwellError`; it escapes `send`
on that same attempt with no retry and no backoff, because the retry
loop catches only classified errors. -/
theorem C9_unparsable_success_body (raws : Nat → RawResult) (mr s : Nat)
    (hs1 : 200 ≤ s) (hs2 : s < 300) (h0 : raws 0 = .response s .unparsable) :
    do_request (raws 0) = .error (.other s!"JSONDecodeError: HTTP {s}") ∧
    transport_send raws mr
      = ⟨.error (.other s!"JSONDecodeError: HTTP {s}"), 1, []⟩ := by
  have hsucc : is_success s = true := by
    unfold is_success
    simp only [Bool.and_eq_true, decide_eq_true_eq]
    omega
  have hdo : do_request (raws 0)
      = .error (.other s!"JSONDecodeError: HTTP {s}") := by
    rw [h0]
    simp [do_request, hsucc]
  refine ⟨hdo, ?_⟩
  unfold transport_send send
  simp only [sendAux, hdo]

/-- C9 witness: status 200 with an unparsable body, `max_retries = 3`:
the unclassified exception escapes after one attempt with no sleeps. -/
theorem C9_unparsable_success_body_witness :
    transport_send (fun _ => .response 200 .unparsable) 3
      = ⟨.error (.other "JSONDecodeError: HTTP 200"), 1, []⟩ := by
  have h := C9_unparsable_success_body (fun _ => .response 200 .unparsable) 3
    200 (by omega) (by omega) rfl
  exact h.2.trans (by rfl)

end Logwell
